import Mathlib

/-
Verification development for queuectl, a CLI background job queue
(src/queuectl/models.py, worker.py, cli.py).

The data model and operations below are shallow embeddings of the Python
source.  Timestamps are modelled as integers (seconds); SQL rows as a
List Job in insertion (id) order; the SQLAlchemy session mutations as pure
record updates.
-/

/-- JobStatus enum of models.py lines 12-17. -/
inductive JobStatus
  | pending
  | processing
  | completed
  | failed
  | dead
deriving DecidableEq, Repr

/-- Job row of models.py lines 19-33.  Column defaults (status PENDING,
attempts 0, max_attempts 3, backoff_base 2, nullable timestamps) are the
default field values.  max_attempts and backoff_base are Int because the
CLI stores whatever integer it is given, including negative ones. -/
structure Job where
  id : Nat
  command : String
  status : JobStatus := .pending
  created_at : Int
  started_at : Option Int := none
  completed_at : Option Int := none
  attempts : Nat := 0
  max_attempts : Int := 3
  backoff_base : Int := 2
  error : Option String := none
  next_retry_at : Option Int := none
deriving DecidableEq, Repr

/-- A freshly inserted row: Job(command=..., max_attempts=..., backoff_base=...)
with the column defaults of models.py lines 23-33. -/
def mkJob (idv : Nat) (cmd : String) (now : Int) (maxA bBase : Int) : Job :=
  { id := idv, command := cmd, created_at := now,
    max_attempts := maxA, backoff_base := bBase }

/-- Eligibility filter of worker.py lines 42-44: status == PENDING and
(next_retry_at is null or next_retry_at <= now). -/
def eligibleB (now : Int) (j : Job) : Bool :=
  decide (j.status = .pending) &&
    (match j.next_retry_at with
     | none => true
     | some t => decide (t ≤ now))

/-- The in-session update of worker.py lines 51-53: status=PROCESSING,
attempts += 1, started_at = now, computed from the row as read. -/
def markProcessing (now : Int) (j : Job) : Job :=
  { j with status := .processing, attempts := j.attempts + 1,
           started_at := some now }

/-- Worker._handle_success, worker.py lines 97-101. -/
def handleSuccess (now : Int) (j : Job) : Job :=
  { j with status := .completed, completed_at := some now }

/-- Worker._handle_failure, worker.py lines 104-122: record the error; if
attempts >= max_attempts move to DEAD with completed_at = now, else
schedule a retry at now + backoff_base ^ attempts * 60 seconds and return
to PENDING. -/
def handleFailure (now : Int) (msg : String) (j : Job) : Job :=
  let j1 := { j with error := some msg }
  if (j1.attempts : Int) ≥ j1.max_attempts then
    { j1 with status := .dead, completed_at := some now }
  else
    let backoff : Int := j1.backoff_base ^ j1.attempts * 60
    { j1 with next_retry_at := some (now + backoff), status := .pending }

/-- One evaluation of the SELECT of worker.py lines 42-45
(filter eligible, ORDER BY created_at, first row): among jobs with minimal
created_at this picks the first in table order, which is one of the orders
the SQL contract permits for equal ORDER BY keys. -/
def minByCreated (l : List Job) : Option Job :=
  match l with
  | [] => none
  | j :: rest =>
      some (rest.foldl (fun a k => if k.created_at < a.created_at then k else a) j)

/-- The SELECT phase of Worker._process_jobs (worker.py lines 42-45). -/
def selectNext (now : Int) (store : List Job) : Option Job :=
  minByCreated (store.filter (eligibleB now))

/-- The COMMIT phase of Worker._process_jobs (worker.py line 54): write back
the updated row computed from the snapshot read by the SELECT.  The UPDATE
is keyed on the primary key only; there is no conditional WHERE clause on
status and no row lock held since the SELECT. -/
def commitClaim (now : Int) (snap : Job) (store : List Job) : List Job :=
  store.map (fun k => if k.id = snap.id then markProcessing now snap else k)

/-- Worker._process_jobs claim cycle run in isolation: SELECT then COMMIT;
if the SELECT finds no row the function returns with the store unchanged
(worker.py lines 47-48). -/
def claimNext (now : Int) (store : List Job) : Option Job × List Job :=
  match selectNext now store with
  | none => (none, store)
  | some j => (some j, commitClaim now j store)

/-- Two concurrent Worker._process_jobs calls interleaved as
select(A); select(B); commit(A); commit(B).  The sqlite3 DBAPI runs a bare
SELECT outside any write transaction, so both SELECTs can read the store
state that precedes either COMMIT; each COMMIT then writes the update
computed from its own stale snapshot.  Returns (result of A, result of B,
final store). -/
def twoCallerRace (now : Int) (store : List Job) :
    Option Job × Option Job × List Job :=
  let ra := selectNext now store
  let rb := selectNext now store
  let s1 := match ra with
    | none => store
    | some j => commitClaim now j store
  let s2 := match rb with
    | none => s1
    | some j => commitClaim now j s1
  (ra, rb, s2)

/-- The set of results the SQL contract permits for the SELECT of
worker.py lines 42-45: none exactly when no row passes the filter, and
otherwise any eligible row with minimal created_at, since ORDER BY leaves
the relative order of rows with equal keys undefined and the query has no
secondary sort key. -/
def QueryFirstResult (now : Int) (store : List Job) : Option Job → Prop
  | none => ∀ j ∈ store, eligibleB now j = false
  | some j => j ∈ store ∧ eligibleB now j = true ∧
      ∀ k ∈ store, eligibleB now k = true → j.created_at ≤ k.created_at

/-- Outcome of the spawned process in Worker._execute_job
(worker.py lines 70-95): normal completion with a return code and captured
output, expiry of the 3600 second timeout, or a spawn-time exception. -/
inductive ExecOutcome
  | completedProc (returnCode : Int) (stdout stderr : String)
  | timedOut
  | spawnError (msg : String)
deriving DecidableEq, Repr

/-- What Worker._execute_job did: the recorded job state and whether
process.kill() was invoked. -/
structure ExecEffect where
  job : Job
  processKilled : Bool
deriving DecidableEq, Repr

/-- Worker._execute_job, worker.py lines 66-95: return code 0 goes to
_handle_success; a non-zero return code, the TimeoutExpired branch (which
first kills the process), and the outer except branch all go to
_handle_failure with their respective messages.  Total: no branch raises. -/
def execute_job (now : Int) (outcome : ExecOutcome) (j : Job) : ExecEffect :=
  match outcome with
  | .completedProc rc _ stderr =>
      if rc = 0 then
        { job := handleSuccess now j, processKilled := false }
      else
        { job := handleFailure now
            ("Command failed with return code " ++ toString rc ++ "\n" ++ stderr) j,
          processKilled := false }
  | .timedOut =>
      { job := handleFailure now "Job timed out after 1 hour" j,
        processKilled := true }
  | .spawnError msg =>
      { job := handleFailure now ("Error executing job: " ++ msg) j,
        processKilled := false }

/-- The per-job reset of cli.py lines 178-183: status=PENDING, attempts=0,
error, completed_at and next_retry_at cleared. -/
def resetForRetry (j : Job) : Job :=
  { j with status := .pending, attempts := 0, error := none,
           completed_at := none, next_retry_at := none }

/-- Whether retry_dlq touches a given row (cli.py lines 167-172): the query
filters on status == DEAD, and unless --all was given also on id ∈ job_ids;
matched rows are reset, all others are left as they are. -/
def retryOne (ids : List Nat) (allFlag : Bool) (j : Job) : Job :=
  if j.status = .dead ∧ (allFlag = true ∨ j.id ∈ ids) then resetForRetry j else j

/-- retry_dlq, cli.py lines 160-187, acting on the whole table. -/
def retryDlq (ids : List Nat) (allFlag : Bool) (store : List Job) : List Job :=
  store.map (retryOne ids allFlag)

/-- The configuration values consumed by add_command. -/
structure Config where
  max_retries : Int
  backoff_base : Int
deriving DecidableEq, Repr

/-- DEFAULT_CONFIG of cli.py lines 22-27 (the two keys add_command reads). -/
def DEFAULT_CONFIG : Config := { max_retries := 3, backoff_base := 2 }

/-- Python x or y on an optional integer: y is used when x is None or 0
(both falsy); any other integer, including a negative one, is kept. -/
def pyOrInt (x : Option Int) (y : Int) : Int :=
  match x with
  | none => y
  | some v => if v = 0 then y else v

/-- add_command, cli.py lines 68-86: build Job(command=...,
max_attempts=max_retries or config.max_retries, backoff_base=backoff_base
or config.backoff_base) and insert it.  There is no validation of either
option; the only failure path is a persistence exception. -/
def add_command (cfg : Config) (command : String)
    (max_retries backoff_base : Option Int)
    (newId : Nat) (now : Int) (store : List Job) : List Job :=
  store ++ [mkJob newId command now
              (pyOrInt max_retries cfg.max_retries)
              (pyOrInt backoff_base cfg.backoff_base)]

/-- A threading.Event value: a flag. -/
structure PyEvent where
  flag : Bool
deriving DecidableEq, Repr

/-- The attributes set by Worker.__init__, worker.py lines 12-17. -/
structure WorkerState where
  worker_id : Nat
  max_jobs : Nat
  shutdown_event : PyEvent
  current_job : Option Nat
  running : Bool
deriving DecidableEq, Repr

/-- Result of running Worker.__init__ under Python name resolution. -/
inductive InitResult
  | ok (w : WorkerState)
  | nameError (missing : String)
deriving DecidableEq, Repr

/-- Names bound at module scope of worker.py by its import statements,
lines 1-9 (plus the module-level defs).  The import of threading inside
start_workers (line 126) binds only a name local to that function, so
threading is not among the module globals. -/
def workerModuleGlobals : List String :=
  ["os", "time", "signal", "subprocess", "datetime", "timedelta",
   "Job", "JobStatus", "get_db_session", "logging", "logger",
   "Worker", "start_workers"]

/-- Worker.__init__, worker.py lines 12-17: shutdown_event defaults to None;
the assignment shutdown_event or threading.Event() evaluates its right
operand exactly when shutdown_event is falsy (None), and that evaluation
looks up the module-global name threading, raising NameError if unbound. -/
def workerInit (worker_id : Nat) (max_jobs : Nat)
    (shutdown_event : Option PyEvent) : InitResult :=
  match shutdown_event with
  | some e =>
      .ok { worker_id := worker_id, max_jobs := max_jobs,
            shutdown_event := e, current_job := none, running := false }
  | none =>
      if "threading" ∈ workerModuleGlobals then
        .ok { worker_id := worker_id, max_jobs := max_jobs,
              shutdown_event := { flag := false }, current_job := none,
              running := false }
      else .nameError "threading"

/-- One transition of a single job record under the operations of the core:
a claim (worker.py lines 51-53, guarded by the eligibility filter), a
success or failure outcome recorded for a Processing job (worker.py
lines 97-122), or the DLQ reset of a Dead job (cli.py lines 178-183). -/
inductive Step : Job → Job → Prop
  | claim (now : Int) {j : Job} (h : eligibleB now j = true) :
      Step j (markProcessing now j)
  | success (now : Int) {j : Job} (h : j.status = .processing) :
      Step j (handleSuccess now j)
  | failure (now : Int) (msg : String) {j : Job} (h : j.status = .processing) :
      Step j (handleFailure now msg j)
  | reset {j : Job} (h : j.status = .dead) :
      Step j (resetForRetry j)

/-- Reachability of a job record by repeated Step transitions. -/
inductive Reach : Job → Job → Prop
  | refl (j : Job) : Reach j j
  | tail {a b c : Job} : Reach a b → Step b c → Reach a c

/- Concrete states used in counterexamples, bug demonstrations and
witnesses. -/

/-- A single eligible Pending job, used for the claim race. -/
def raceJob : Job := mkJob 7 "sleep 30" 0 3 2

def raceStore : List Job := [raceJob]

/-- Two eligible jobs with equal created_at and distinct ids. -/
def tieJobA : Job := mkJob 1 "first" 50 3 2

def tieJobB : Job := mkJob 2 "second" 50 3 2

def tieStore : List Job := [tieJobA, tieJobB]

/-- A job that has reached the Dead state: created with max_attempts 1,
claimed once and failed. -/
def deadJobEx : Job :=
  handleFailure 5 "boom" (markProcessing 1 (mkJob 9 "exit 1" 0 1 2))

/- Helper lemmas about the failure handler. -/

lemma handleFailure_error (now : Int) (msg : String) (j : Job) :
    (handleFailure now msg j).error = some msg := by
  unfold handleFailure
  dsimp only
  split <;> rfl

lemma handleFailure_attempts (now : Int) (msg : String) (j : Job) :
    (handleFailure now msg j).attempts = j.attempts := by
  unfold handleFailure
  dsimp only
  split <;> rfl

lemma handleFailure_max (now : Int) (msg : String) (j : Job) :
    (handleFailure now msg j).max_attempts = j.max_attempts := by
  unfold handleFailure
  dsimp only
  split <;> rfl

lemma handleFailure_dead_fields (now : Int) (msg : String) (j : Job)
    (h : (j.attempts : Int) ≥ j.max_attempts) :
    (handleFailure now msg j).status = .dead ∧
    (handleFailure now msg j).completed_at = some now := by
  unfold handleFailure
  dsimp only
  rw [if_pos h]
  exact ⟨rfl, rfl⟩

lemma handleFailure_retry_fields (now : Int) (msg : String) (j : Job)
    (h : ¬ ((j.attempts : Int) ≥ j.max_attempts)) :
    (handleFailure now msg j).status = .pending ∧
    (handleFailure now msg j).completed_at = j.completed_at ∧
    (handleFailure now msg j).next_retry_at =
      some (now + j.backoff_base ^ j.attempts * 60) := by
  unfold handleFailure
  dsimp only
  rw [if_neg h]
  exact ⟨rfl, rfl, rfl⟩

/- Helper lemmas about the SELECT evaluation. -/

lemma foldlMin_mem (rest : List Job) : ∀ a : Job,
    rest.foldl (fun x k => if k.created_at < x.created_at then k else x) a ∈ a :: rest := by
  induction rest with
  | nil => intro a; simp
  | cons b t ih =>
      intro a
      have h := ih (if b.created_at < a.created_at then b else a)
      simp only [List.foldl_cons]
      rcases List.mem_cons.1 h with h1 | h1
      · rw [h1]
        by_cases hb : b.created_at < a.created_at
        · simp [hb]
        · simp [hb]
      · simp [List.mem_cons, h1]

lemma foldlMin_le (rest : List Job) : ∀ a k : Job, k ∈ a :: rest →
    (rest.foldl (fun x y => if y.created_at < x.created_at then y else x) a).created_at
      ≤ k.created_at := by
  induction rest with
  | nil =>
      intro a k hk
      rcases List.mem_cons.1 hk with h | h
      · rw [h]; simp
      · exact absurd h (List.not_mem_nil k)
  | cons b t ih =>
      intro a k hk
      simp only [List.foldl_cons]
      have hfab : (if b.created_at < a.created_at then b else a).created_at ≤ a.created_at := by
        by_cases hb : b.created_at < a.created_at
        · simp [hb]; exact le_of_lt hb
        · simp [hb]
      have hfbb : (if b.created_at < a.created_at then b else a).created_at ≤ b.created_at := by
        by_cases hb : b.created_at < a.created_at
        · simp [hb]
        · simp [hb]; exact le_of_not_lt hb
      have hself := ih (if b.created_at < a.created_at then b else a)
        (if b.created_at < a.created_at then b else a) (List.mem_cons_self _ _)
      rcases List.mem_cons.1 hk with h | h
      · rw [h]; exact le_trans hself hfab
      · rcases List.mem_cons.1 h with h2 | h2
        · rw [h2]; exact le_trans hself hfbb
        · exact ih _ k (List.mem_cons_of_mem _ h2)

/-- The deterministic evaluation of the SELECT is one of the results the
SQL contract permits. -/
lemma selectNext_permitted (now : Int) (store : List Job) :
    QueryFirstResult now store (selectNext now store) := by
  unfold selectNext minByCreated
  cases hfe : store.filter (eligibleB now) with
  | nil =>
      intro j hj
      by_contra hne
      have he : eligibleB now j = true := by
        cases hx : eligibleB now j
        · exact absurd hx hne
        · rfl
      have : j ∈ store.filter (eligibleB now) := List.mem_filter.2 ⟨hj, he⟩
      rw [hfe] at this
      exact absurd this (List.not_mem_nil j)
  | cons b t =>
      refine ⟨?_, ?_, ?_⟩
      · have hm := foldlMin_mem t b
        have : (t.foldl (fun x k => if k.created_at < x.created_at then k else x) b)
            ∈ store.filter (eligibleB now) := by rw [hfe]; exact hm
        exact (List.mem_filter.1 this).1
      · have hm := foldlMin_mem t b
        have : (t.foldl (fun x k => if k.created_at < x.created_at then k else x) b)
            ∈ store.filter (eligibleB now) := by rw [hfe]; exact hm
        exact (List.mem_filter.1 this).2
      · intro k hk hke
        have : k ∈ store.filter (eligibleB now) := List.mem_filter.2 ⟨hk, hke⟩
        rw [hfe] at this
        exact foldlMin_le t b k this

/-- C1: the claim protocol of Worker._process_jobs is a SELECT followed by
an UPDATE keyed on the primary key alone, with no row lock and no
conditional clause on status; with two concurrent callers whose SELECTs
both run before either COMMIT, both callers receive the single eligible
Pending job and each proceeds to execute it, the second COMMIT silently
repeating the same update.  The specified invariant, that exactly one of K
concurrent callers receives the job, fails at K = 2. -/
theorem claim_race_both_receive :
    raceStore.filter (eligibleB 100) = [raceJob] ∧
    (twoCallerRace 100 raceStore).1 = some raceJob ∧
    (twoCallerRace 100 raceStore).2.1 = some raceJob ∧
    (twoCallerRace 100 raceStore).2.2 = [markProcessing 100 raceJob] := by
  decide

/-- C9: constructing a Worker with the default shutdown_event=None raises
NameError, because the constructor fallback references the module-global
name threading, which worker.py never binds at module scope; with an
explicit event the constructor succeeds, so the default argument is the
one unusable entry point. -/
theorem worker_default_event_name_error :
    workerInit 1 10 none = .nameError "threading" ∧
    ("threading" ∈ workerModuleGlobals ↔ False) ∧
    (∀ e : PyEvent, workerInit 1 10 (some e) =
      .ok { worker_id := 1, max_jobs := 10, shutdown_event := e,
            current_job := none, running := false }) := by
  refine ⟨by decide, by decide, fun e => rfl⟩

/-- C10: add_command combines its options with Python or, which falls back
on falsy values: passing 0 for max_retries or backoff_base silently stores
the configured default (3 and 2 under DEFAULT_CONFIG) instead of 0, nothing
is rejected, and a negative value is stored as given. -/
theorem add_command_falsy_fallback :
    (∀ cmd idv now store, ∃ j : Job,
        add_command DEFAULT_CONFIG cmd (some 0) (some 0) idv now store = store ++ [j] ∧
        j.max_attempts = 3 ∧ j.backoff_base = 2 ∧ j.status = .pending) ∧
    (∀ cmd idv now store (v w : Int), v < 0 → w < 0 → ∃ j : Job,
        add_command DEFAULT_CONFIG cmd (some v) (some w) idv now store = store ++ [j] ∧
        j.max_attempts = v ∧ j.backoff_base = w) := by
  constructor
  · intro cmd idv now store
    exact ⟨_, rfl, rfl, rfl, rfl⟩
  · intro cmd idv now store v w hv hw
    refine ⟨mkJob idv cmd now v w, ?_, rfl, rfl⟩
    have hv0 : v ≠ 0 := ne_of_lt hv
    have hw0 : w ≠ 0 := ne_of_lt hw
    simp [add_command, pyOrInt, DEFAULT_CONFIG, hv0, hw0]

/-- Witness for C10 at concrete inputs. -/
theorem add_command_falsy_fallback_witness :
    (∃ j : Job, add_command DEFAULT_CONFIG "echo hi" (some 0) (some 0) 1 0 [] = [] ++ [j] ∧
        j.max_attempts = 3 ∧ j.backoff_base = 2 ∧ j.status = .pending) ∧
    (∃ j : Job, add_command DEFAULT_CONFIG "echo hi" (some (-1)) (some (-2)) 1 0 [] = [] ++ [j] ∧
        j.max_attempts = -1 ∧ j.backoff_base = -2) :=
  ⟨add_command_falsy_fallback.1 "echo hi" 1 0 [],
   add_command_falsy_fallback.2 "echo hi" 1 0 [] (-1) (-2) (by decide) (by decide)⟩

/-- C6 counterexample: a submission with the non-positive value
max_retries = -5 is not rejected; add_command persists a job and stores
max_attempts = -5 as given. -/
theorem add_command_persists_nonpositive :
    add_command DEFAULT_CONFIG "touch x" (some (-5)) none 1 0 [] =
      [{ id := 1, command := "touch x", status := .pending, created_at := 0,
         started_at := none, completed_at := none, attempts := 0,
         max_attempts := -5, backoff_base := 2, error := none,
         next_retry_at := none }] := by
  decide

/-- C6 amended: the submit operation performs no parameter validation: it
always persists exactly one new Pending job with attempts 0; a nonzero
max_retries, including a negative one, is stored as given, and a zero or
omitted max_retries silently falls back to the configured default instead
of being rejected (likewise for backoff_base). -/
theorem add_command_no_validation :
    ∀ cfg cmd mr bb idv now store, ∃ j : Job,
      add_command cfg cmd mr bb idv now store = store ++ [j] ∧
      j.status = .pending ∧ j.attempts = 0 ∧
      (∀ v : Int, mr = some v → v ≠ 0 → j.max_attempts = v) ∧
      ((mr = none ∨ mr = some 0) → j.max_attempts = cfg.max_retries) ∧
      (∀ v : Int, bb = some v → v ≠ 0 → j.backoff_base = v) ∧
      ((bb = none ∨ bb = some 0) → j.backoff_base = cfg.backoff_base) := by
  intro cfg cmd mr bb idv now store
  refine ⟨mkJob idv cmd now (pyOrInt mr cfg.max_retries) (pyOrInt bb cfg.backoff_base),
    rfl, rfl, rfl, ?_, ?_, ?_, ?_⟩
  · intro v hv hv0
    simp [mkJob, pyOrInt, hv, hv0]
  · rintro (h | h) <;> simp [mkJob, pyOrInt, h]
  · intro v hv hv0
    simp [mkJob, pyOrInt, hv, hv0]
  · rintro (h | h) <;> simp [mkJob, pyOrInt, h]

/-- Witness for the amended C6 at a concrete input. -/
theorem add_command_no_validation_witness :
    ∃ j : Job, add_command DEFAULT_CONFIG "touch y" (some (-5)) none 2 0 [] = [] ++ [j] ∧
      j.max_attempts = -5 ∧ j.backoff_base = 2 := by
  obtain ⟨j, h1, _, _, h4, _, _, h7⟩ :=
    add_command_no_validation DEFAULT_CONFIG "touch y" (some (-5)) none 2 0 []
  exact ⟨j, h1, h4 (-5) rfl (by decide), h7 (Or.inl rfl)⟩

/-- C7: a timed-out command is force-terminated (process.kill is invoked in
that branch and no other), the recorded error is the dedicated timeout
message, which no exit-code message can equal, the executor itself never
changes the attempt counter (so the cycle consumes exactly the one attempt
incremented at claim time), and every outcome is routed into the job
record: each result is either the success transition or carries a non-null
error field.  The function is total, so no branch raises to the worker
loop. -/
theorem execute_job_timeout_and_totality :
    (∀ (now : Int) (j : Job), (execute_job now .timedOut j).processKilled = true) ∧
    (∀ (now : Int) (j : Job), (execute_job now .timedOut j).job.error =
        some "Job timed out after 1 hour") ∧
    (∀ (rc : Int) (s : String),
        "Job timed out after 1 hour" ≠
          "Command failed with return code " ++ toString rc ++ "\n" ++ s) ∧
    (∀ (now : Int) (j : Job), (execute_job now .timedOut j).job.attempts = j.attempts) ∧
    (∀ (tClaim tEnd : Int) (j : Job),
        (execute_job tEnd .timedOut (markProcessing tClaim j)).job.attempts =
          j.attempts + 1) ∧
    (∀ (now : Int) (o : ExecOutcome) (j : Job),
        (execute_job now o j).job = handleSuccess now j ∨
        (execute_job now o j).job.error ≠ none) := by
  refine ⟨fun now j => rfl, fun now j => handleFailure_error now _ j, ?_, ?_, ?_, ?_⟩
  · intro rc s h
    have hl := congrArg String.length h
    rw [String.length_append, String.length_append, String.length_append] at hl
    have h1 : ("Job timed out after 1 hour").length = 26 := by decide
    have h2 : ("Command failed with return code ").length = 32 := by decide
    have h3 : ("\n").length = 1 := by decide
    rw [h1, h2, h3] at hl
    omega
  · intro now j
    exact handleFailure_attempts now _ j
  · intro tClaim tEnd j
    have : (execute_job tEnd .timedOut (markProcessing tClaim j)).job =
        handleFailure tEnd "Job timed out after 1 hour" (markProcessing tClaim j) := rfl
    rw [this, handleFailure_attempts]
    rfl
  · intro now o j
    cases o with
    | completedProc rc out err =>
        by_cases hrc : rc = 0
        · left
          simp [execute_job, hrc]
        · right
          simp [execute_job, hrc, handleFailure_error]
    | timedOut =>
        right
        simp [execute_job, handleFailure_error]
    | spawnError msg =>
        right
        simp [execute_job, handleFailure_error]

/-- C3: a failure recorded while attempts < max_attempts returns the job to
Pending with the failure message in error, leaves completed_at untouched
(so a null completed_at stays null), and schedules
next_retry_at = now + backoff_base ^ attempts * 60 seconds; in particular
backoff_base = 2 with attempts = 1 gives now + 120 and attempts = 3 gives
now + 480. -/
theorem handleFailure_retry_backoff :
    (∀ (now : Int) (msg : String) (j : Job), (j.attempts : Int) < j.max_attempts →
      (handleFailure now msg j).status = .pending ∧
      (handleFailure now msg j).error = some msg ∧
      (handleFailure now msg j).completed_at = j.completed_at ∧
      (handleFailure now msg j).next_retry_at =
        some (now + j.backoff_base ^ j.attempts * 60)) ∧
    (∀ (now : Int) (msg : String) (j : Job), (j.attempts : Int) < j.max_attempts →
      j.backoff_base = 2 → j.attempts = 1 →
      (handleFailure now msg j).next_retry_at = some (now + 120)) ∧
    (∀ (now : Int) (msg : String) (j : Job), (j.attempts : Int) < j.max_attempts →
      j.backoff_base = 2 → j.attempts = 3 →
      (handleFailure now msg j).next_retry_at = some (now + 480)) := by
  have main : ∀ (now : Int) (msg : String) (j : Job),
      (j.attempts : Int) < j.max_attempts →
      (handleFailure now msg j).status = .pending ∧
      (handleFailure now msg j).error = some msg ∧
      (handleFailure now msg j).completed_at = j.completed_at ∧
      (handleFailure now msg j).next_retry_at =
        some (now + j.backoff_base ^ j.attempts * 60) := by
    intro now msg j h
    obtain ⟨h1, h2, h3⟩ := handleFailure_retry_fields now msg j (not_le.mpr h)
    exact ⟨h1, handleFailure_error now msg j, h2, h3⟩
  refine ⟨main, ?_, ?_⟩
  · intro now msg j h hb ha
    rw [(main now msg j h).2.2.2, hb, ha]
    norm_num
  · intro now msg j h hb ha
    rw [(main now msg j h).2.2.2, hb, ha]
    norm_num

/-- Witness for C3 at a concrete input: a job claimed once (attempts 1),
backoff_base 2, max_attempts 3, failing at time 10. -/
theorem handleFailure_retry_backoff_witness :
    (handleFailure 10 "boom" (markProcessing 0 (mkJob 3 "false" 0 3 2))).status = .pending ∧
    (handleFailure 10 "boom" (markProcessing 0 (mkJob 3 "false" 0 3 2))).error = some "boom" ∧
    (handleFailure 10 "boom" (markProcessing 0 (mkJob 3 "false" 0 3 2))).completed_at = none ∧
    (handleFailure 10 "boom" (markProcessing 0 (mkJob 3 "false" 0 3 2))).next_retry_at =
      some 130 := by
  obtain ⟨h1, h2, h3, h4⟩ := handleFailure_retry_backoff.1 10 "boom"
    (markProcessing 0 (mkJob 3 "false" 0 3 2)) (by decide)
  refine ⟨h1, h2, h3, ?_⟩
  rw [h4]
  decide

/-- C4: a failure recorded while attempts >= max_attempts moves the job to
Dead with completed_at = now and the failure message in error; and a job
created with max_attempts = 3 that is claimed and fails three times is
Dead after the third failure, whatever the claim and failure times are. -/
theorem handleFailure_dead_and_third_failure :
    (∀ (now : Int) (msg : String) (j : Job), (j.attempts : Int) ≥ j.max_attempts →
      (handleFailure now msg j).status = .dead ∧
      (handleFailure now msg j).completed_at = some now ∧
      (handleFailure now msg j).error = some msg) ∧
    (∀ (idv : Nat) (cmd : String) (t0 t1 t2 t3 t4 t5 t6 : Int)
        (m1 m2 m3 : String),
      (handleFailure t6 m3 (markProcessing t5
        (handleFailure t4 m2 (markProcessing t3
          (handleFailure t2 m1 (markProcessing t1
            (mkJob idv cmd t0 3 2))))))).status = .dead) := by
  constructor
  · intro now msg j h
    obtain ⟨h1, h2⟩ := handleFailure_dead_fields now msg j h
    exact ⟨h1, h2, handleFailure_error now msg j⟩
  · intro idv cmd t0 t1 t2 t3 t4 t5 t6 m1 m2 m3
    have ha : (markProcessing t5 (handleFailure t4 m2 (markProcessing t3
        (handleFailure t2 m1 (markProcessing t1 (mkJob idv cmd t0 3 2)))))).attempts
        = 3 := by
      show (handleFailure t4 m2 (markProcessing t3
        (handleFailure t2 m1 (markProcessing t1 (mkJob idv cmd t0 3 2))))).attempts
          + 1 = 3
      rw [handleFailure_attempts]
      show (handleFailure t2 m1 (markProcessing t1 (mkJob idv cmd t0 3 2))).attempts
          + 1 + 1 = 3
      rw [handleFailure_attempts]
      rfl
    have hm : (markProcessing t5 (handleFailure t4 m2 (markProcessing t3
        (handleFailure t2 m1 (markProcessing t1 (mkJob idv cmd t0 3 2)))))).max_attempts
        = 3 := by
      show (handleFailure t4 m2 (markProcessing t3
        (handleFailure t2 m1 (markProcessing t1 (mkJob idv cmd t0 3 2))))).max_attempts
          = 3
      rw [handleFailure_max]
      show (handleFailure t2 m1 (markProcessing t1 (mkJob idv cmd t0 3 2))).max_attempts
          = 3
      rw [handleFailure_max]
      rfl
    exact (handleFailure_dead_fields t6 m3 _ (by rw [ha, hm]; norm_num)).1

/-- Witness for C4 at a concrete input: a job with max_attempts 1 claimed
once, so attempts = max_attempts, failing at time 5. -/
theorem handleFailure_dead_witness :
    (handleFailure 5 "boom" (markProcessing 0 (mkJob 2 "x" 0 1 2))).status = .dead ∧
    (handleFailure 5 "boom" (markProcessing 0 (mkJob 2 "x" 0 1 2))).completed_at = some 5 ∧
    (handleFailure 5 "boom" (markProcessing 0 (mkJob 2 "x" 0 1 2))).error = some "boom" :=
  handleFailure_dead_and_third_failure.1 5 "boom" _ (by decide)

/-- C5: retry_dlq touches only rows whose status is Dead (and, without the
all flag, whose id was listed); a touched row is reset to Pending with
attempts 0 and error, completed_at and next_retry_at cleared, and the
reset row passes the claim eligibility filter at every time; a row not in
Dead status is returned unmodified and is still a member of the resulting
table. -/
theorem retryDlq_resets_only_dead :
    (∀ (ids : List Nat) (allFlag : Bool) (j : Job), j.status ≠ .dead →
        retryOne ids allFlag j = j) ∧
    (∀ (ids : List Nat) (allFlag : Bool) (j : Job), j.status = .dead →
        (allFlag = true ∨ j.id ∈ ids) → retryOne ids allFlag j = resetForRetry j) ∧
    (∀ j : Job, (resetForRetry j).status = .pending ∧ (resetForRetry j).attempts = 0 ∧
        (resetForRetry j).error = none ∧ (resetForRetry j).completed_at = none ∧
        (resetForRetry j).next_retry_at = none ∧
        ∀ now : Int, eligibleB now (resetForRetry j) = true) ∧
    (∀ (ids : List Nat) (allFlag : Bool) (store : List Job) (j : Job),
        j ∈ store → j.status ≠ .dead → j ∈ retryDlq ids allFlag store) := by
  have hskip : ∀ (ids : List Nat) (allFlag : Bool) (j : Job), j.status ≠ .dead →
      retryOne ids allFlag j = j := by
    intro ids allFlag j h
    unfold retryOne
    rw [if_neg (fun hc => h hc.1)]
  refine ⟨hskip, ?_, ?_, ?_⟩
  · intro ids allFlag j h h2
    unfold retryOne
    rw [if_pos ⟨h, h2⟩]
  · intro j
    exact ⟨rfl, rfl, rfl, rfl, rfl, fun now => rfl⟩
  · intro ids allFlag store j hj hne
    exact List.mem_map.2 ⟨j, hj, hskip ids allFlag j hne⟩

/-- Witness for C5 at concrete inputs: a Dead job is reset and becomes
eligible; a Pending job whose id is listed is untouched. -/
theorem retryDlq_resets_only_dead_witness :
    retryOne [] true deadJobEx = resetForRetry deadJobEx ∧
    (resetForRetry deadJobEx).attempts = 0 ∧
    eligibleB 0 (resetForRetry deadJobEx) = true ∧
    retryOne [9] false (mkJob 9 "exit 1" 0 1 2) = mkJob 9 "exit 1" 0 1 2 :=
  ⟨retryDlq_resets_only_dead.2.1 [] true deadJobEx (by decide) (Or.inl rfl),
   (retryDlq_resets_only_dead.2.2.1 deadJobEx).2.1,
   (retryDlq_resets_only_dead.2.2.1 deadJobEx).2.2.2.2.2 0,
   retryDlq_resets_only_dead.1 [9] false _ (by decide)⟩

/-- C2 counterexample: the SELECT orders by created_at alone and has no
secondary sort key, so for two eligible jobs with equal created_at the SQL
contract also permits returning the one with the larger id; the asserted
break of ties by smallest id does not hold of every permitted result. -/
theorem claimNext_tie_break_refuted :
    ¬ (∀ (now : Int) (store : List Job) (j : Job),
        QueryFirstResult now store (some j) →
        ∀ k ∈ store, eligibleB now k = true → k ≠ j →
          j.created_at < k.created_at ∨
            (j.created_at = k.created_at ∧ j.id < k.id)) := by
  intro h
  have hq : QueryFirstResult 100 tieStore (some tieJobB) := by
    refine ⟨by decide, by decide, ?_⟩
    intro k hk hke
    rcases List.mem_cons.1 hk with h1 | h1
    · rw [h1]; decide
    · rcases List.mem_cons.1 h1 with h2 | h2
      · rw [h2]
      · exact absurd h2 (List.not_mem_nil k)
  have hc := h 100 tieStore tieJobB hq tieJobA (by decide) (by decide) (by decide)
  rcases hc with hc | hc
  · exact absurd hc (by decide)
  · exact absurd hc.2 (by decide)

/-- C2 amended: every result the SELECT contract permits is an eligible
Pending job (next_retry_at null or at most now) whose created_at is
minimal among the eligible jobs; the order among jobs with equal
created_at is unspecified, since the query orders by created_at alone; the
deterministic evaluation selectNext is one permitted result, and when it
finds no row the claim cycle returns none and leaves the store
unchanged. -/
theorem claimNext_min_created :
    (∀ (now : Int) (store : List Job),
        QueryFirstResult now store (selectNext now store)) ∧
    (∀ (now : Int) (store : List Job) (j : Job),
        QueryFirstResult now store (some j) →
        j.status = .pending ∧
        (∀ t, j.next_retry_at = some t → t ≤ now) ∧
        (∀ k ∈ store, eligibleB now k = true → j.created_at ≤ k.created_at)) ∧
    (∀ (now : Int) (store : List Job),
        selectNext now store = none → claimNext now store = (none, store)) := by
  refine ⟨selectNext_permitted, ?_, ?_⟩
  · intro now store j hq
    obtain ⟨hmem, helig, hmin⟩ := hq
    unfold eligibleB at helig
    rw [Bool.and_eq_true] at helig
    obtain ⟨h1, h2⟩ := helig
    refine ⟨of_decide_eq_true h1, ?_, hmin⟩
    intro t ht
    rw [ht] at h2
    exact of_decide_eq_true h2
  · intro now store h
    unfold claimNext
    rw [h]

/-- Witness for the amended C2 at concrete inputs. -/
theorem claimNext_min_created_witness :
    QueryFirstResult 0 tieStore (selectNext 0 tieStore) ∧
    (tieJobA.status = .pending ∧
      (∀ t, tieJobA.next_retry_at = some t → t ≤ 100) ∧
      (∀ k ∈ tieStore, eligibleB 100 k = true →
        tieJobA.created_at ≤ k.created_at)) ∧
    claimNext 100 [] = (none, []) := by
  refine ⟨claimNext_min_created.1 0 tieStore, ?_, claimNext_min_created.2.2 100 [] rfl⟩
  refine claimNext_min_created.2.1 100 tieStore tieJobA ?_
  refine ⟨by decide, by decide, ?_⟩
  intro k hk hke
  rcases List.mem_cons.1 hk with h1 | h1
  · rw [h1]
  · rcases List.mem_cons.1 h1 with h2 | h2
    · rw [h2]; decide
    · exact absurd h2 (List.not_mem_nil k)

/-- C8: in every job state reachable from a fresh submission with positive
max_attempts by claims, recorded outcomes (success and failure) and DLQ
resets, Dead status implies attempts >= max_attempts and a non-null
completed_at. -/
theorem dead_implies_attempts_capped (idv : Nat) (cmd : String)
    (t0 maxA bBase : Int) (j : Job)
    (_hmax : 0 < maxA)
    (hr : Reach (mkJob idv cmd t0 maxA bBase) j)
    (hd : j.status = .dead) :
    (j.attempts : Int) ≥ j.max_attempts ∧ j.completed_at ≠ none := by
  revert hd
  induction hr with
  | refl =>
      intro hd
      exact absurd hd (by simp [mkJob])
  | tail hr hs ih =>
      intro hd
      cases hs with
      | claim now h =>
          exact absurd hd (by simp [markProcessing])
      | success now h =>
          exact absurd hd (by simp [handleSuccess])
      | reset h =>
          exact absurd hd (by simp [resetForRetry])
      | failure now msg h =>
          rename_i b
          by_cases hc : ((b.attempts : Int) ≥ b.max_attempts)
          · constructor
            · rw [handleFailure_attempts, handleFailure_max]
              exact hc
            · rw [(handleFailure_dead_fields now msg b hc).2]
              simp
          · exact absurd hd (by
              rw [(handleFailure_retry_fields now msg b hc).1]
              simp)

/-- Witness for C8: a job with max_attempts 1 is claimed at time 1 and
fails at time 2, reaching Dead; the invariant then gives attempts at the
cap and completed_at set. -/
theorem dead_implies_attempts_capped_witness :
    ((handleFailure 2 "err" (markProcessing 1 (mkJob 1 "x" 0 1 2))).attempts : Int) ≥
      (handleFailure 2 "err" (markProcessing 1 (mkJob 1 "x" 0 1 2))).max_attempts ∧
    (handleFailure 2 "err" (markProcessing 1 (mkJob 1 "x" 0 1 2))).completed_at ≠ none :=
  dead_implies_attempts_capped 1 "x" 0 1 2 _ (by decide)
    (Reach.tail (Reach.tail (Reach.refl _) (Step.claim 1 (by decide)))
      (Step.failure 2 "err" (by decide)))
    (by decide)

/-- Witness for C7 at a concrete claimed job timing out. -/
theorem execute_job_timeout_witness :
    (execute_job 9 .timedOut (markProcessing 4 (mkJob 5 "sleep 7200" 0 3 2))).processKilled
      = true ∧
    (execute_job 9 .timedOut (markProcessing 4 (mkJob 5 "sleep 7200" 0 3 2))).job.error =
      some "Job timed out after 1 hour" ∧
    (execute_job 9 .timedOut (markProcessing 4 (mkJob 5 "sleep 7200" 0 3 2))).job.attempts
      = 1 :=
  ⟨execute_job_timeout_and_totality.1 9 _,
   execute_job_timeout_and_totality.2.1 9 _,
   execute_job_timeout_and_totality.2.2.2.2.1 4 9 (mkJob 5 "sleep 7200" 0 3 2)⟩

/-- Witness for C9 at a concrete explicit event. -/
theorem worker_default_event_witness :
    workerInit 1 10 none = .nameError "threading" ∧
    workerInit 1 10 (some { flag := false }) =
      .ok { worker_id := 1, max_jobs := 10, shutdown_event := { flag := false },
            current_job := none, running := false } :=
  ⟨worker_default_event_name_error.1,
   worker_default_event_name_error.2.2 { flag := false }⟩
